import Mathlib

/-!
Verification development for the procedural cloud renderer.

The JavaScript sources are shallowly embedded over the rationals, except for
the light-direction normalisation of the sky-gradient worker, which divides by
a Euclidean length and is embedded over the reals.  JS helper semantics
(Math.floor, Math.round, Math.ceil, the remainder operator) are modelled
explicitly below.
-/

namespace Clouds

/-- JS Math.floor on a rational. -/
def jsFloor (q : ℚ) : ℤ := ⌊q⌋

/-- JS Math.ceil on a rational. -/
def jsCeil (q : ℚ) : ℤ := ⌈q⌉

/-- JS Math.round on a rational: round half toward positive infinity. -/
def jsRound (q : ℚ) : ℤ := ⌊q + 1/2⌋

/-- JS truncation toward zero, used by the remainder operator. -/
def jsTrunc (q : ℚ) : ℤ := if q < 0 then ⌈q⌉ else ⌊q⌋

/-- JS remainder operator a % m (sign follows the dividend). -/
def jsMod (a m : ℚ) : ℚ := a - m * jsTrunc (a / m)

/-- clamp q into the interval from lo to hi, as Math.max lo (Math.min hi q). -/
def clampQ (lo hi q : ℚ) : ℚ := max lo (min hi q)

/-! ## Grid sizing of the cloud shape synthesizer

Two variants of generateFullCloudData exist in the repository.  The complete
variant uses a 10-px pixel size, grid dimensions ceil(width/10) and
ceil(height/10), both clamped to MAX_GRID_SIZE = 80, and an adjusted pixel
size max (width / actualGridWidth) (height / actualGridHeight).  The variant
in src/src/workers/cloudDataWorker.ts uses an 8-px pixel size and iterates
over the full natural grid ceil(width/8) by ceil(height/8), with no cap and
no pixel-size adjustment.
-/

/-- Pixel size used by the synthesizer before any cap adjustment. -/
def pixelSize : ℚ := 10

/-- Hard cap on each grid axis. -/
def MAX_GRID_SIZE : ℤ := 80

/-- Natural grid width: ceil of width / pixelSize. -/
def gridWidth (w : ℚ) : ℤ := jsCeil (w / pixelSize)

/-- Natural grid height: ceil of height / pixelSize. -/
def gridHeight (h : ℚ) : ℤ := jsCeil (h / pixelSize)

/-- Grid width after the cap: min of the natural width and the cap. -/
def actualGridWidth (w : ℚ) : ℤ := min (gridWidth w) MAX_GRID_SIZE

/-- Grid height after the cap. -/
def actualGridHeight (h : ℚ) : ℤ := min (gridHeight h) MAX_GRID_SIZE

/-- Effective pixel size after the cap: the larger of the per-axis ratios. -/
def adjustedPixelSize (w h : ℚ) : ℚ :=
  max (w / (actualGridWidth w : ℚ)) (h / (actualGridHeight h : ℚ))

/-- Pixel size of the uncapped cloudDataWorker.ts variant. -/
def pixelSizeAlt : ℚ := 8

/-- Grid width of the uncapped variant: ceil of width / 8, used as is. -/
def gridWidthAlt (w : ℚ) : ℤ := jsCeil (w / pixelSizeAlt)

/-- Grid height of the uncapped variant: ceil of height / 8, used as is. -/
def gridHeightAlt (h : ℚ) : ℤ := jsCeil (h / pixelSizeAlt)

/-! ## PerlinNoise (src/src/utils/perlinNoise.ts)

The class holds a permutation table built once from the seed by a seeded
linear-congruential shuffle, and a doubled copy used for wrap-free lookups.
Lookup is a pure function of the table and the input point.
-/

structure PerlinNoise where
  permutation : Array ℕ
  p : Array ℕ

namespace PerlinNoise

/-- One update of the linear congruential generator inside the shuffle:
random = (random * 9301 + 49297) % 233280.  The seed, and hence random, may
be fractional, so this is the JS remainder on rationals. -/
def lcgStep (random : ℚ) : ℚ := jsMod (random * 9301 + 49297) 233280

/-- One iteration of the shuffle loop at index i: draw j and swap perm[i]
with perm[j].  For the nonnegative seeds the repository constructs, j always
lies in [0, i]; an out-of-range j (reachable only from a negative seed) is
modelled as leaving the array unchanged. -/
def shuffleStep (st : Array ℕ × ℚ) (i : ℕ) : Array ℕ × ℚ :=
  let random := lcgStep st.2
  let j := jsFloor (random / 233280 * ((i : ℚ) + 1))
  if 0 ≤ j ∧ j < 256 then
    let a := st.1
    let vi := a.getD i 0
    let vj := a.getD j.toNat 0
    ((a.setD i vj).setD j.toNat vi, random)
  else (st.1, random)

/-- The seeded shuffle of the identity permutation on 0..255, iterating
i = 255 down to 1. -/
def generatePermutation (seed : ℚ) : Array ℕ :=
  ((List.range 255).foldl (fun st k => shuffleStep st (255 - k))
    (Array.range 256, seed)).1

/-- The constructor: build the permutation and its doubled copy. -/
def create (seed : ℚ) : PerlinNoise :=
  let perm := generatePermutation seed
  ⟨perm, perm ++ perm⟩

/-- Quintic fade curve. -/
def fade (t : ℚ) : ℚ := t * t * t * (t * (t * 6 - 15) + 10)

/-- Linear interpolation a + t * (b - a). -/
def lerp (a b t : ℚ) : ℚ := a + t * (b - a)

/-- Hash-selected corner gradient.  hash & 15 is hash % 16; h & 1 tests the
lowest bit and h & 2 the next bit. -/
def grad (hash : ℕ) (x y : ℚ) : ℚ :=
  let h := hash % 16
  let u := if h < 8 then x else y
  let v := if h < 4 then y else if h = 12 ∨ h = 14 then x else 0
  (if h % 2 = 0 then u else -u) + (if h / 2 % 2 = 0 then v else -v)

/-- Gradient-noise lookup.  Math.floor(x) & 255 on the 32-bit integer is the
low byte, i.e. the Euclidean remainder mod 256. -/
def noise (n : PerlinNoise) (x y : ℚ) : ℚ :=
  let X := ((jsFloor x) % 256).toNat
  let Y := ((jsFloor y) % 256).toNat
  let xFrac := x - (jsFloor x : ℚ)
  let yFrac := y - (jsFloor y : ℚ)
  let u := fade xFrac
  let v := fade yFrac
  let A := n.p.getD X 0 + Y
  let AA := n.p.getD A 0
  let AB := n.p.getD (A + 1) 0
  let B := n.p.getD (X + 1) 0 + Y
  let BA := n.p.getD B 0
  let BB := n.p.getD (B + 1) 0
  lerp
    (lerp (grad (n.p.getD AA 0) xFrac yFrac)
      (grad (n.p.getD BA 0) (xFrac - 1) yFrac) u)
    (lerp (grad (n.p.getD AB 0) xFrac (yFrac - 1))
      (grad (n.p.getD BB 0) (xFrac - 1) (yFrac - 1)) u)
    v

end PerlinNoise

/-! ## Depth-layer partitioning

Two variants of generateDepthLayers exist in the repository; both build a
record keyed LAYER_0 .. LAYER_(n-1), modelled here as a function of the layer
index.  generateDepthLayersMain is the variant whose scale ranges use the
inverse depth (back layers larger); generateDepthLayersAlt is the other
historical variant.
-/

structure MinMax where
  min : ℚ
  max : ℚ
  deriving DecidableEq, Repr

structure DepthLayerConfig where
  depth : ℚ
  speedMultiplier : ℚ
  scaleRange : MinMax
  alphaRange : MinMax
  yRange : MinMax
  constrainedYRange : MinMax
  constrainedPercentage : ℚ
  deriving DecidableEq, Repr

def SLICE_OVERLAP_FACTOR : ℚ := 0.3

def CONSTRAINED_CLOUD_PERCENTAGE : ℚ := 0.75

/-- Layer i of the variant with inverse-depth scale ranges. -/
def generateDepthLayersMain (numLayers i : ℕ) : DepthLayerConfig :=
  let totalVerticalSpace : ℚ := 0.5
  let sliceHeight := totalVerticalSpace / (numLayers : ℚ)
  let overlapAmount := sliceHeight * SLICE_OVERLAP_FACTOR
  let depth := (i : ℚ) / ((numLayers : ℚ) - 1)
  let sliceStart := 0.5 + (i : ℚ) * sliceHeight
  let sliceEnd := min 1.0 (sliceStart + sliceHeight)
  let constrainedStart := max 0.5 (sliceStart - overlapAmount * 0.3)
  let constrainedEnd := min 1.0 (sliceEnd + overlapAmount * 0.3)
  let fullStart := max 0.45 (sliceStart - overlapAmount * 0.8)
  let fullEnd := min 1.05 (sliceEnd + overlapAmount * 0.8)
  let inverseDepth := 1 - depth
  { depth := depth
    speedMultiplier := 0.1 + depth * 1.4
    scaleRange := ⟨0.4 + inverseDepth * 0.6, 0.5 + inverseDepth * 0.6⟩
    alphaRange := ⟨0.3 + depth * 0.4, 0.5 + depth * 0.4⟩
    yRange := ⟨fullStart, fullEnd⟩
    constrainedYRange := ⟨constrainedStart, constrainedEnd⟩
    constrainedPercentage := CONSTRAINED_CLOUD_PERCENTAGE }

/-- Layer i of the other historical variant. -/
def generateDepthLayersAlt (numLayers i : ℕ) : DepthLayerConfig :=
  let totalVerticalSpace : ℚ := 0.5
  let sliceHeight := totalVerticalSpace / (numLayers : ℚ)
  let overlapAmount := sliceHeight * SLICE_OVERLAP_FACTOR
  let depth := (i : ℚ) / ((numLayers : ℚ) - 1)
  let sliceStart := 0.5 + (i : ℚ) * sliceHeight
  let sliceEnd := min 1.0 (sliceStart + sliceHeight)
  let constrainedStart := max 0.5 (sliceStart - overlapAmount * 0.5)
  let constrainedEnd := min 1.0 (sliceEnd + overlapAmount * 0.5)
  let fullStart := 0.5 + depth * 0.25
  let fullEnd := 0.75 + depth * 0.25
  { depth := depth
    speedMultiplier := 0.1 + depth * 1.4
    scaleRange := ⟨0.3 + depth * 0.5, 0.6 + depth * 1.0⟩
    alphaRange := ⟨0.2 + depth * 0.5, 0.4 + depth * 0.6⟩
    yRange := ⟨fullStart, fullEnd⟩
    constrainedYRange := ⟨constrainedStart, constrainedEnd⟩
    constrainedPercentage := CONSTRAINED_CLOUD_PERCENTAGE }

/-- Midpoint of a layer's scale range. -/
def scaleMid (c : DepthLayerConfig) : ℚ := (c.scaleRange.min + c.scaleRange.max) / 2

/-! ## Sky gradient worker

Embeds the sky lighting model: per-phase palettes, the quartile transition
policy with cubic easing, and the sun viewport position with its normalised
light direction.  Color fields are rational; the light direction divides by a
Euclidean length and is therefore embedded over the reals further below.
-/

inductive TimeOfDay where
  | deep_night
  | night_before_dawn
  | dawn
  | sunrise
  | morning
  | solar_noon_transition
  | solar_noon
  | afternoon
  | evening_transition
  | sunset
  | dusk
  | night_after_dusk
  deriving DecidableEq, Repr, BEq

structure RGB where
  r : ℚ
  g : ℚ
  b : ℚ
  deriving DecidableEq, Repr

namespace Sky

open TimeOfDay

/-- Linear (top-to-bottom) gradient stops per phase.  The source's default
branch is unreachable: every TimeOfDay value has its own case. -/
def getGradientColorsForTimeOfDay : TimeOfDay → List RGB
  | deep_night => [⟨0.01, 0.01, 0.05⟩, ⟨0.02, 0.02, 0.08⟩, ⟨0.03, 0.03, 0.1⟩]
  | night_before_dawn => [⟨0.02, 0.02, 0.08⟩, ⟨0.03, 0.03, 0.12⟩, ⟨0.05, 0.05, 0.15⟩]
  | dawn => [⟨0.15, 0.1, 0.25⟩, ⟨0.3, 0.15, 0.35⟩, ⟨0.5, 0.25, 0.4⟩, ⟨0.7, 0.35, 0.35⟩]
  | sunrise => [⟨0.8, 0.4, 0.3⟩, ⟨0.95, 0.6, 0.2⟩, ⟨1.0, 0.8, 0.3⟩, ⟨1.0, 0.9, 0.5⟩]
  | morning => [⟨0.9, 0.95, 1.0⟩, ⟨0.6, 0.75, 0.98⟩, ⟨0.5, 0.7, 0.95⟩, ⟨0.4, 0.6, 0.9⟩]
  | solar_noon_transition =>
      [⟨0.95, 0.98, 1.0⟩, ⟨0.6, 0.75, 0.98⟩, ⟨0.5, 0.7, 0.95⟩, ⟨0.35, 0.55, 0.85⟩]
  | solar_noon =>
      [⟨0.95, 0.98, 1.0⟩, ⟨0.6, 0.75, 0.98⟩, ⟨0.5, 0.7, 0.95⟩, ⟨0.35, 0.55, 0.85⟩]
  | afternoon => [⟨0.9, 0.95, 1.0⟩, ⟨0.6, 0.75, 0.98⟩, ⟨0.5, 0.7, 0.95⟩, ⟨0.4, 0.6, 0.9⟩]
  | evening_transition =>
      [⟨0.5, 0.65, 0.9⟩, ⟨0.65, 0.75, 0.85⟩, ⟨0.8, 0.82, 0.85⟩, ⟨0.9, 0.88, 0.85⟩]
  | sunset => [⟨0.9, 0.6, 0.35⟩, ⟨0.7, 0.45, 0.5⟩, ⟨1.0, 0.75, 0.25⟩, ⟨0.8, 0.5, 0.6⟩]
  | dusk => [⟨0.45, 0.3, 0.55⟩, ⟨0.25, 0.2, 0.45⟩, ⟨0.15, 0.1, 0.3⟩]
  | night_after_dusk => [⟨0.08, 0.05, 0.2⟩, ⟨0.12, 0.08, 0.25⟩, ⟨0.05, 0.03, 0.12⟩]

/-- Radial gradient stops per phase; night phases fall into the source's
default (morning-like) branch, which is unreachable for them because they
never select the radial table. -/
def getRadialGradientColorsForTimeOfDay : TimeOfDay → List RGB
  | dawn => [⟨0.8, 0.4, 0.3⟩, ⟨0.6, 0.3, 0.4⟩, ⟨0.3, 0.15, 0.35⟩, ⟨0.15, 0.1, 0.25⟩]
  | sunrise => [⟨1.0, 0.8, 0.3⟩, ⟨0.95, 0.6, 0.2⟩, ⟨0.7, 0.35, 0.35⟩, ⟨0.5, 0.25, 0.4⟩]
  | morning => [⟨0.9, 0.95, 1.0⟩, ⟨0.6, 0.75, 0.98⟩, ⟨0.5, 0.7, 0.95⟩, ⟨0.4, 0.6, 0.9⟩]
  | solar_noon_transition =>
      [⟨0.95, 0.98, 1.0⟩, ⟨0.6, 0.75, 0.98⟩, ⟨0.5, 0.7, 0.95⟩, ⟨0.35, 0.55, 0.85⟩]
  | solar_noon =>
      [⟨0.95, 0.98, 1.0⟩, ⟨0.6, 0.75, 0.98⟩, ⟨0.5, 0.7, 0.95⟩, ⟨0.35, 0.55, 0.85⟩]
  | afternoon => [⟨0.9, 0.95, 1.0⟩, ⟨0.6, 0.75, 0.98⟩, ⟨0.5, 0.7, 0.95⟩, ⟨0.4, 0.6, 0.9⟩]
  | evening_transition =>
      [⟨1.0, 0.9, 0.7⟩, ⟨0.9, 0.8, 0.8⟩, ⟨0.8, 0.82, 0.85⟩, ⟨0.5, 0.65, 0.9⟩]
  | sunset => [⟨1.0, 0.75, 0.25⟩, ⟨0.9, 0.6, 0.35⟩, ⟨0.7, 0.45, 0.5⟩, ⟨0.45, 0.3, 0.55⟩]
  | _ => [⟨1.0, 1.0, 0.95⟩, ⟨0.8, 0.9, 1.0⟩, ⟨0.65, 0.8, 0.98⟩, ⟨0.5, 0.7, 0.95⟩]

/-- Sun color per phase; evening_transition falls through to the source's
default branch, whose value coincides with the daytime case. -/
def getSunColorForTimeOfDay : TimeOfDay → RGB
  | deep_night | night_before_dawn | night_after_dusk => ⟨0.1, 0.1, 0.2⟩
  | dawn | dusk => ⟨0.8, 0.5, 0.3⟩
  | sunrise | sunset => ⟨1.0, 0.7, 0.2⟩
  | morning | afternoon | solar_noon_transition | solar_noon => ⟨1.0, 1.0, 0.9⟩
  | evening_transition => ⟨1.0, 1.0, 0.9⟩

structure CloudColors where
  cloudBaseColor : RGB
  cloudHighlightColor : RGB
  cloudShadowColor : RGB
  deriving DecidableEq, Repr

/-- Cloud colors per phase; evening_transition falls through to the source's
default branch, whose value coincides with the daytime case. -/
def getCloudColorsForTimeOfDay : TimeOfDay → CloudColors
  | deep_night | night_before_dawn | night_after_dusk =>
      ⟨⟨0.7, 0.7, 0.75⟩, ⟨0.85, 0.85, 0.9⟩, ⟨0.5, 0.5, 0.55⟩⟩
  | dawn | dusk => ⟨⟨0.6, 0.6, 0.65⟩, ⟨0.75, 0.75, 0.8⟩, ⟨0.4, 0.4, 0.45⟩⟩
  | sunrise | sunset => ⟨⟨0.9, 0.85, 0.8⟩, ⟨1.0, 0.95, 0.9⟩, ⟨0.5, 0.4, 0.45⟩⟩
  | morning | solar_noon_transition | afternoon | solar_noon =>
      ⟨⟨0.95, 0.95, 0.95⟩, ⟨1.0, 1.0, 1.0⟩, ⟨0.5, 0.55, 0.7⟩⟩
  | evening_transition => ⟨⟨0.95, 0.95, 0.95⟩, ⟨1.0, 1.0, 1.0⟩, ⟨0.5, 0.55, 0.7⟩⟩

/-- Night and dusk phases use a linear gradient; all other phases radial. -/
def shouldUseRadialGradient : TimeOfDay → Bool
  | deep_night | night_before_dawn | night_after_dusk | dusk => false
  | _ => true

/-- Cubic ease-in-out. -/
def easeInOutCubic (t : ℚ) : ℚ :=
  if t < 0.5 then 4 * t * t * t else 1 - (-2 * t + 2) ^ 3 / 2

/-- Component-wise linear interpolation between two colors. -/
def interpolateColor (c1 c2 : RGB) (progress : ℚ) : RGB :=
  ⟨c1.r + (c2.r - c1.r) * progress,
   c1.g + (c2.g - c1.g) * progress,
   c1.b + (c2.b - c1.b) * progress⟩

/-- Index-wise interpolation of two stop lists, clamping each index to the
last element of the shorter list. -/
def interpolateGradientColors (colors1 colors2 : List RGB) (progress : ℚ) :
    List RGB :=
  (List.range (max colors1.length colors2.length)).map fun i =>
    interpolateColor (colors1.getD (min i (colors1.length - 1)) ⟨0, 0, 0⟩)
      (colors2.getD (min i (colors2.length - 1)) ⟨0, 0, 0⟩) progress

structure TimePeriodInfo where
  name : TimeOfDay
  startTime : ℚ
  endTime : ℚ
  deriving DecidableEq, Repr

/-- The fields of SunPosition read by the modelled code paths.  altitude and
azimuth are consumed only by the default branch of
calculateSunViewportPosition, which is unreachable because the switch covers
every TimeOfDay value. -/
structure SunPosition where
  altitude : ℚ
  azimuth : ℚ
  currentTimePeriod : TimePeriodInfo
  deriving DecidableEq, Repr

/-- Chronological order of phases used to find the next phase; the list ends
with deep_night again so the cycle loops. -/
def timeOfDayChronologicalOrder : List TimeOfDay :=
  [deep_night, night_before_dawn, dawn, sunrise, morning, solar_noon_transition,
   solar_noon, afternoon, evening_transition, sunset, dusk, night_after_dusk,
   deep_night]

/-- The phase following t in the chronological order.  The source's fallback
for a name missing from the list is unreachable: indexOf always succeeds. -/
def nextTimeOfDay (t : TimeOfDay) : TimeOfDay :=
  timeOfDayChronologicalOrder.getD
    ((timeOfDayChronologicalOrder.indexOf t + 1) %
      timeOfDayChronologicalOrder.length) deep_night

/-- Intra-phase progress: elapsed fraction of the current period, clamped to
[0, 1]; zero when the period has nonpositive duration. -/
def periodProgress (sp : SunPosition) (now : ℚ) : ℚ :=
  let periodDuration := sp.currentTimePeriod.endTime - sp.currentTimePeriod.startTime
  if 0 < periodDuration then
    clampQ 0 1 ((now - sp.currentTimePeriod.startTime) / periodDuration)
  else 0

structure TransitionInfo where
  isTransitioning : Bool
  nextTimeOfDayName : TimeOfDay
  progress : ℚ
  deriving DecidableEq, Repr

/-- Transition info: blending starts at the 0.75 threshold, and the blend
factor is the eased, clamped remap of the last quartile onto [0, 1].  The
timestamp is the currentTimeMs argument; the fallback to the wall clock when
that argument is absent is outside the model. -/
def calculateTransitionInfo (sp : SunPosition) (now : ℚ) : TransitionInfo :=
  let nextName := nextTimeOfDay sp.currentTimePeriod.name
  let pp := periodProgress sp now
  if 0.75 ≤ pp then
    { isTransitioning := true
      nextTimeOfDayName := nextName
      progress := easeInOutCubic (min 1 (max 0 ((pp - 0.75) / (1 - 0.75)))) }
  else
    { isTransitioning := false, nextTimeOfDayName := nextName, progress := 0 }

inductive GradientType where
  | linear
  | radial
  deriving DecidableEq, Repr

/-- The color and gradient-type fields of the descriptor returned by
generateSkyGradient.  The geometric fields (sun viewport position and light
direction) are modelled separately below. -/
structure SkyColors where
  gradientColors : List RGB
  sunColor : RGB
  cloudBaseColor : RGB
  cloudHighlightColor : RGB
  cloudShadowColor : RGB
  gradientType : GradientType
  deriving DecidableEq, Repr

/-- The stop list a phase contributes: the radial table when the phase uses a
radial gradient, the linear table otherwise. -/
def gradientColorsFor (t : TimeOfDay) : List RGB :=
  if shouldUseRadialGradient t then getRadialGradientColorsForTimeOfDay t
  else getGradientColorsForTimeOfDay t

/-- The unmixed descriptor colors of a phase: the non-transition branch of
generateSkyGradient. -/
def unmixedSkyColors (t : TimeOfDay) : SkyColors :=
  { gradientColors := gradientColorsFor t
    sunColor := getSunColorForTimeOfDay t
    cloudBaseColor := (getCloudColorsForTimeOfDay t).cloudBaseColor
    cloudHighlightColor := (getCloudColorsForTimeOfDay t).cloudHighlightColor
    cloudShadowColor := (getCloudColorsForTimeOfDay t).cloudShadowColor
    gradientType := if shouldUseRadialGradient t then .radial else .linear }

/-- The color fields of generateSkyGradient: blend toward the next phase in
the transition window, otherwise return the current palette unmixed. -/
def generateSkyGradientColors (sp : SunPosition) (now : ℚ) : SkyColors :=
  let name := sp.currentTimePeriod.name
  let info := calculateTransitionInfo sp now
  if info.isTransitioning ∧ info.nextTimeOfDayName ≠ name then
    let nextName := info.nextTimeOfDayName
    { gradientColors :=
        interpolateGradientColors (gradientColorsFor name) (gradientColorsFor nextName)
          info.progress
      sunColor :=
        interpolateColor (getSunColorForTimeOfDay name) (getSunColorForTimeOfDay nextName)
          info.progress
      cloudBaseColor :=
        interpolateColor (getCloudColorsForTimeOfDay name).cloudBaseColor
          (getCloudColorsForTimeOfDay nextName).cloudBaseColor info.progress
      cloudHighlightColor :=
        interpolateColor (getCloudColorsForTimeOfDay name).cloudHighlightColor
          (getCloudColorsForTimeOfDay nextName).cloudHighlightColor info.progress
      cloudShadowColor :=
        interpolateColor (getCloudColorsForTimeOfDay name).cloudShadowColor
          (getCloudColorsForTimeOfDay nextName).cloudShadowColor info.progress
      gradientType := if shouldUseRadialGradient name then .radial else .linear }
  else unmixedSkyColors name

structure Vec2Q where
  x : ℚ
  y : ℚ
  deriving DecidableEq, Repr

/-- Per-phase sun viewport position.  The source's default branch, which
projects the astronomical altitude and azimuth, is unreachable because the
switch covers every TimeOfDay value. -/
def sunViewportPositionFor : TimeOfDay → Vec2Q
  | dawn | sunrise | morning => ⟨1.5, 0.3⟩
  | solar_noon_transition | solar_noon => ⟨0.5, -0.5⟩
  | afternoon | evening_transition | sunset => ⟨-0.5, 0.3⟩
  | dusk | night_after_dusk | deep_night | night_before_dawn => ⟨0.5, 2.0⟩

structure Vec2R where
  x : ℝ
  y : ℝ

/-- Euclidean length of a real 2-vector. -/
noncomputable def lenR (v : Vec2R) : ℝ := Real.sqrt (v.x ^ 2 + v.y ^ 2)

/-- Normalise a vector, returning the zero vector when the length is zero. -/
noncomputable def normalizeOrZero (dx dy : ℝ) : Vec2R :=
  let length := Real.sqrt (dx ^ 2 + dy ^ 2)
  if 0 < length then ⟨dx / length, dy / length⟩ else ⟨0, 0⟩

/-- The light direction of calculateSunViewportPosition: the normalised
vector from the phase's sun viewport position to the viewport center. -/
noncomputable def phaseLightDirection (t : TimeOfDay) : Vec2R :=
  let s := sunViewportPositionFor t
  normalizeOrZero ((0.5 : ℝ) - (s.x : ℝ)) ((0.5 : ℝ) - (s.y : ℝ))

/-- The lightDirection field of the descriptor returned by
generateSkyGradient: during a transition the two phases' directions are
interpolated component-wise by the eased blend factor, otherwise the current
phase's direction is returned as is. -/
noncomputable def generateSkyGradientLightDirection (sp : SunPosition) (now : ℚ) :
    Vec2R :=
  let name := sp.currentTimePeriod.name
  let info := calculateTransitionInfo sp now
  let cur := phaseLightDirection name
  if info.isTransitioning ∧ info.nextTimeOfDayName ≠ name then
    let nxt := phaseLightDirection info.nextTimeOfDayName
    ⟨cur.x + (nxt.x - cur.x) * (info.progress : ℝ),
     cur.y + (nxt.y - cur.y) * (info.progress : ℝ)⟩
  else cur

/-- The stop list produced at blend factor zero: the current list padded to
the longer of the two lists by replicating its final stop. -/
def padStops (cur nxt : List RGB) : List RGB :=
  (List.range (max cur.length nxt.length)).map fun i =>
    cur.getD (min i (cur.length - 1)) ⟨0, 0, 0⟩

/-- A channel lies between the corresponding channels of two colors. -/
def channelBetween (a b x : ℚ) : Prop := min a b ≤ x ∧ x ≤ max a b

/-- All three channels lie between the corresponding ones of two colors. -/
def rgbBetween (c1 c2 c : RGB) : Prop :=
  channelBetween c1.r c2.r c.r ∧ channelBetween c1.g c2.g c.g ∧
    channelBetween c1.b c2.b c.b

end Sky

/-! ## Cloud data worker (complete variant)

Embeds the shared color-mapping logic, the per-cell shadow factor, and the
two re-shading operations.  Worker inputs arrive as structured-cloned plain
data, so a raw pixel property is a bag of JS values whose field types the
worker checks entry by entry.
-/

namespace Worker

/-- A JS value as seen by the worker's typeof checks: a number, a boolean, or
anything else (undefined, missing, wrongly typed). -/
inductive JSVal where
  | num (q : ℚ)
  | bool (b : Bool)
  | other
  deriving DecidableEq, Repr

def JSVal.isNum : JSVal → Bool
  | .num _ => true
  | _ => false

def JSVal.isBool : JSVal → Bool
  | .bool _ => true
  | _ => false

/-- The numeric payload; only read after isNum has been checked. -/
def JSVal.asNum : JSVal → ℚ
  | .num q => q
  | _ => 0

/-- The boolean payload; only read after isBool has been checked. -/
def JSVal.asBool : JSVal → Bool
  | .bool b => b
  | _ => false

/-- The fields of a received pixel property that the re-shading operations
check and read.  The remaining PixelProperty fields (alpha, color, pixel
position and size) are neither validated nor modified apart from the object
spread, so they are not modelled. -/
structure RawPixelProp where
  nx : JSVal
  ny : JSVal
  density : JSVal
  isEdge : JSVal
  edgeDistance : JSVal
  shadowFactor : JSVal
  brightness : JSVal
  depth : JSVal
  deriving DecidableEq, Repr

/-- The typeof checks of recalculatePixelColors. -/
def validForColors (p : RawPixelProp) : Bool :=
  p.density.isNum && p.isEdge.isBool && p.edgeDistance.isNum &&
    p.shadowFactor.isNum && p.brightness.isNum && p.depth.isNum

/-- The typeof checks of recalculatePixelColorsAndShadows, which additionally
require the normalised coordinates. -/
def validForShadows (p : RawPixelProp) : Bool :=
  validForColors p && p.nx.isNum && p.ny.isNum

/-- The fields of the sky-gradient descriptor the cloud worker reads: the
three cloud colors and, when present, the light direction. -/
structure WorkerSkyGradient where
  cloudBaseColor : RGB
  cloudHighlightColor : RGB
  cloudShadowColor : RGB
  lightDirection : Option Sky.Vec2Q
  deriving DecidableEq, Repr

/-- Daytime test: all three cloud base channels exceed 0.8; false without a
descriptor. -/
def isDaytimeOf (g : Option WorkerSkyGradient) : Bool :=
  match g with
  | some g =>
      decide (0.8 < g.cloudBaseColor.r) && decide (0.8 < g.cloudBaseColor.g) &&
        decide (0.8 < g.cloudBaseColor.b)
  | none => false

/-- Pack three channel values into a 24-bit integer.  For channels in
[0, 255], which the repository's palettes always produce, this equals the
source's (r shifted left 16) or (g shifted left 8) or b. -/
def packRGB (r g b : ℤ) : ℤ := r * 65536 + g * 256 + b

/-- The inputs of the shared color-mapping function. -/
structure PixelColorInfo where
  density : ℚ
  isEdge : Bool
  edgeDistance : ℚ
  shadowFactor : ℚ
  brightness : ℚ
  depth : Option ℚ
  depthDarkeningFactor : Option ℚ
  isDaytime : Option Bool
  deriving DecidableEq, Repr

/-- The shared color-mapping function of the complete worker variant: a
two-segment piecewise blend around the 0.7 shadow threshold, with daytime
depth darkening, a brightness modulation, and a grayscale fallback when no
descriptor is supplied. -/
def calculatePixelColorLogic (pixelInfo : PixelColorInfo)
    (skyGradient : Option WorkerSkyGradient) : ℤ :=
  match skyGradient with
  | some g =>
    let isCurrentlyDaytime :=
      match pixelInfo.isDaytime with
      | some b => b
      | none =>
          decide (0.8 < g.cloudBaseColor.r) && decide (0.8 < g.cloudBaseColor.g) &&
            decide (0.8 < g.cloudBaseColor.b)
    let baseColor := g.cloudBaseColor
    let highlightColor := g.cloudHighlightColor
    let shadowColor := g.cloudShadowColor
    let adjusted :=
      if isCurrentlyDaytime && (pixelInfo.depthDarkeningFactor.isSome ||
          pixelInfo.depth.isSome) then
        let darkeningFactor :=
          match pixelInfo.depthDarkeningFactor with
          | some f => f
          | none =>
              match pixelInfo.depth with
              | some d => 1.0 - d * 0.4
              | none => 1.0
        let depthAdjustedBaseColor : RGB :=
          ⟨baseColor.r * darkeningFactor, baseColor.g * darkeningFactor,
            baseColor.b * darkeningFactor⟩
        let depthShadowMultiplier :=
          match pixelInfo.depth with
          | some d => 0.8 + d * 0.2
          | none => 1.0
        (pixelInfo.shadowFactor * depthShadowMultiplier, depthAdjustedBaseColor)
      else (pixelInfo.shadowFactor, baseColor)
    let depthAdjustedShadowFactor := adjusted.1
    let depthAdjustedBaseColor := adjusted.2
    let finalColor : RGB :=
      if 0.7 < depthAdjustedShadowFactor then
        let highlightMix := (depthAdjustedShadowFactor - 0.7) / 0.3
        ⟨depthAdjustedBaseColor.r +
            (highlightColor.r - depthAdjustedBaseColor.r) * highlightMix,
          depthAdjustedBaseColor.g +
            (highlightColor.g - depthAdjustedBaseColor.g) * highlightMix,
          depthAdjustedBaseColor.b +
            (highlightColor.b - depthAdjustedBaseColor.b) * highlightMix⟩
      else
        let shadowMix := depthAdjustedShadowFactor / 0.7
        ⟨shadowColor.r + (depthAdjustedBaseColor.r - shadowColor.r) * shadowMix,
          shadowColor.g + (depthAdjustedBaseColor.g - shadowColor.g) * shadowMix,
          shadowColor.b + (depthAdjustedBaseColor.b - shadowColor.b) * shadowMix⟩
    let brightnessVariation := 0.85 + pixelInfo.brightness * 0.15
    let clamped : RGB :=
      ⟨min 1.0 (finalColor.r * brightnessVariation),
        min 1.0 (finalColor.g * brightnessVariation),
        min 1.0 (finalColor.b * brightnessVariation)⟩
    packRGB (jsRound (min 255 (clamped.r * 255))) (jsRound (min 255 (clamped.g * 255)))
      (jsRound (min 255 (clamped.b * 255)))
  | none =>
    let gray := jsFloor (pixelInfo.brightness * 255)
    packRGB gray gray gray

/-- The per-cell shadow factor, identical in the synthesizer loop and in
recalculatePixelColorsAndShadows: the light dot product rescaled to [0, 1],
scaled up with density, floored at 0.6 for edge cells, and clamped to
[0.1, 1]. -/
def computeShadowFactor (nx ny lx ly density : ℚ) (isEdge : Bool) : ℚ :=
  let pixelToLightDot := nx * lx + ny * ly
  let baseShadowFactor := max 0 (min 1 ((pixelToLightDot + 1) * 0.5))
  let withDensity := baseShadowFactor * (0.7 + density * 0.3)
  let withEdge := if isEdge then max withDensity 0.6 else withDensity
  max 0.1 (min 1.0 withEdge)

/-- The light direction the worker uses: the descriptor's lightDirection when
present, else the default (-0.2, -0.8). -/
def lightDirOf (g : Option WorkerSkyGradient) : Sky.Vec2Q :=
  (g.bind (·.lightDirection)).getD ⟨-0.2, -0.8⟩

/-- The color computed for one valid entry of recalculatePixelColors,
with the depth darkening factor precomputed from the descriptor. -/
def recalcColorOf (g : Option WorkerSkyGradient) (p : RawPixelProp) : ℤ :=
  let isDaytime := isDaytimeOf g
  let depthDarkeningFactor :=
    if isDaytime then 1.0 - p.depth.asNum * 0.4 else 1.0
  calculatePixelColorLogic
    { density := p.density.asNum
      isEdge := p.isEdge.asBool
      edgeDistance := p.edgeDistance.asNum
      shadowFactor := p.shadowFactor.asNum
      brightness := p.brightness.asNum
      depth := some p.depth.asNum
      depthDarkeningFactor := some depthDarkeningFactor
      isDaytime := some isDaytime } g

/-- recalculatePixelColors: entries that are not objects (none) or fail the
typeof checks are skipped; the rest are mapped to new colors.  The empty
input hits the source's early return of an empty array, which coincides with
the empty loop. -/
def recalculatePixelColors (pixelProps : List (Option RawPixelProp))
    (newSkyGradient : Option WorkerSkyGradient) : List ℤ :=
  match pixelProps with
  | [] => []
  | none :: rest => recalculatePixelColors rest newSkyGradient
  | some p :: rest =>
      if validForColors p then
        recalcColorOf newSkyGradient p :: recalculatePixelColors rest newSkyGradient
      else recalculatePixelColors rest newSkyGradient

/-- The fragment field recalculatePixelColorsAndShadows reads. -/
structure FragmentData where
  depth : ℚ
  deriving DecidableEq, Repr

/-- The updated shadow factor, brightness and color for one valid entry of
recalculatePixelColorsAndShadows. -/
def recalcShadowOf (g : Option WorkerSkyGradient) (fd : FragmentData)
    (p : RawPixelProp) : ℤ × RawPixelProp :=
  let lightDir := lightDirOf g
  let isDaytime := isDaytimeOf g
  let newShadowFactor :=
    computeShadowFactor p.nx.asNum p.ny.asNum lightDir.x lightDir.y
      p.density.asNum p.isEdge.asBool
  let depthBrightnessMultiplier := 0.7 + fd.depth * 0.4
  let baseBrightness :=
    if p.isEdge.asBool then (0.7 + p.density.asNum * 0.2) * depthBrightnessMultiplier
    else (0.6 + p.density.asNum * 0.3) * depthBrightnessMultiplier
  let shadowedBrightness := baseBrightness * (0.8 + newShadowFactor * 0.2)
  let newBrightness := max 0.3 (min 1.0 shadowedBrightness)
  let depthDarkeningFactor :=
    if isDaytime then 1.0 - p.depth.asNum * 0.4 else 1.0
  let color :=
    calculatePixelColorLogic
      { density := p.density.asNum
        isEdge := p.isEdge.asBool
        edgeDistance := p.edgeDistance.asNum
        shadowFactor := newShadowFactor
        brightness := newBrightness
        depth := some p.depth.asNum
        depthDarkeningFactor := some depthDarkeningFactor
        isDaytime := some isDaytime } g
  (color, { p with shadowFactor := .num newShadowFactor, brightness := .num newBrightness })

/-- recalculatePixelColorsAndShadows: skips invalid entries and returns the
new colors together with the updated pixel properties. -/
def recalculatePixelColorsAndShadows (pixelProps : List (Option RawPixelProp))
    (newSkyGradient : Option WorkerSkyGradient) (fragmentData : FragmentData) :
    List ℤ × List RawPixelProp :=
  match pixelProps with
  | [] => ([], [])
  | none :: rest => recalculatePixelColorsAndShadows rest newSkyGradient fragmentData
  | some p :: rest =>
      let tail := recalculatePixelColorsAndShadows rest newSkyGradient fragmentData
      if validForShadows p then
        let cp := recalcShadowOf newSkyGradient fragmentData p
        (cp.1 :: tail.1, cp.2 :: tail.2)
      else tail

/-- A well-typed pixel property as the synthesizer emits it. -/
structure PixelProperty where
  nx : ℚ
  ny : ℚ
  density : ℚ
  isEdge : Bool
  edgeDistance : ℚ
  shadowFactor : ℚ
  brightness : ℚ
  alpha : ℚ
  color : ℤ
  pixelX : ℚ
  pixelY : ℚ
  pixelSize : ℚ
  depth : ℚ
  deriving DecidableEq, Repr

/-- Projection of a well-typed pixel property onto the raw fields the
re-shading operations check and read. -/
def PixelProperty.toRaw (p : PixelProperty) : Option RawPixelProp :=
  some
    { nx := .num p.nx
      ny := .num p.ny
      density := .num p.density
      isEdge := .bool p.isEdge
      edgeDistance := .num p.edgeDistance
      shadowFactor := .num p.shadowFactor
      brightness := .num p.brightness
      depth := .num p.depth }

/-- The color the synthesizer stores in a pixel property it emits under
descriptor g: the shared color logic applied to the cell's attributes, with
the daytime flag and depth darkening factor precomputed from g and the
fragment depth recorded in the property. -/
def synthesisColor (g : Option WorkerSkyGradient) (p : PixelProperty) : ℤ :=
  let isDaytime := isDaytimeOf g
  calculatePixelColorLogic
    { density := p.density
      isEdge := p.isEdge
      edgeDistance := p.edgeDistance
      shadowFactor := p.shadowFactor
      brightness := p.brightness
      depth := some p.depth
      depthDarkeningFactor := some (if isDaytime then 1.0 - p.depth * 0.4 else 1.0)
      isDaytime := some isDaytime } g

/-- An entry the recalculatePixelColors loop skips: a non-object or one
failing the typeof checks. -/
def skippedByColors (e : Option RawPixelProp) : Prop :=
  match e with
  | none => True
  | some p => validForColors p = false

/-- An entry the recalculatePixelColorsAndShadows loop skips. -/
def skippedByShadows (e : Option RawPixelProp) : Prop :=
  match e with
  | none => True
  | some p => validForShadows p = false

end Worker

/-! ## CloudFragment destruction (src/src/entities/CloudFragment.ts)

The per-fragment state destroy touches: the display object's destroyed flag
(set by its own destroy call and guarding re-entry), the render texture, the
graphics object, and the pixel-property array.
-/

structure CloudFragmentState where
  displayObjectDestroyed : Bool
  hasRenderTexture : Bool
  graphicsDestroyed : Bool
  pixelProperties : List Worker.PixelProperty
  deriving DecidableEq, Repr

/-- destroy: return immediately when the display object is already destroyed;
otherwise destroy the display object, release the render texture, destroy the
graphics, and clear the pixel properties. -/
def CloudFragmentState.destroy (s : CloudFragmentState) : CloudFragmentState :=
  if s.displayObjectDestroyed then s
  else
    { displayObjectDestroyed := true
      hasRenderTexture := false
      graphicsDestroyed := true
      pixelProperties := [] }

/-! Concrete witness data. -/

/-- A daytime descriptor as the cloud worker receives it. -/
def witnessGradient : Option Worker.WorkerSkyGradient :=
  some
    { cloudBaseColor := ⟨0.95, 0.95, 0.95⟩
      cloudHighlightColor := ⟨1.0, 1.0, 1.0⟩
      cloudShadowColor := ⟨0.5, 0.55, 0.7⟩
      lightDirection := some ⟨-0.2, -0.8⟩ }

/-- A pixel property before its synthesis color is filled in. -/
def witnessPixelBase : Worker.PixelProperty :=
  { nx := 0.1, ny := -0.2, density := 0.5, isEdge := false, edgeDistance := 0.3
    shadowFactor := 0.8, brightness := 0.9, alpha := 0.7, color := 0
    pixelX := 1, pixelY := 2, pixelSize := 10, depth := 0.3 }

/-- The same pixel property with the color the synthesizer would store. -/
def witnessPixel : Worker.PixelProperty :=
  { witnessPixelBase with color := Worker.synthesisColor witnessGradient witnessPixelBase }

/-- A fresh, undestroyed fragment state with a render texture. -/
def witnessFragmentState : CloudFragmentState :=
  { displayObjectDestroyed := false
    hasRenderTexture := true
    graphicsDestroyed := false
    pixelProperties := [witnessPixel] }

/-- A malformed worker entry: its density field holds a boolean. -/
def witnessBadEntry : Option Worker.RawPixelProp :=
  some
    { nx := .num 0, ny := .num 0, density := .bool true, isEdge := .bool false
      edgeDistance := .num 0, shadowFactor := .num 0, brightness := .num 0
      depth := .num 0 }

/-- A well-formed raw worker entry. -/
def witnessRaw : Worker.RawPixelProp :=
  { nx := .num 0.1, ny := .num (-0.2), density := .num 0.5, isEdge := .bool false
    edgeDistance := .num 0.3, shadowFactor := .num 0.8, brightness := .num 0.9
    depth := .num 0.3 }

end Clouds

-- ========================= THEOREMS =========================

namespace Clouds

lemma gridWidth_pos {w : ℚ} (hw : 0 < w) : 0 < gridWidth w := by
  have : (0 : ℚ) < w / pixelSize := by
    have : (0 : ℚ) < pixelSize := by norm_num [pixelSize]
    positivity
  have := Int.ceil_pos.mpr this
  simpa [gridWidth, jsCeil] using this

lemma actualGridWidth_pos {w : ℚ} (hw : 0 < w) : 0 < actualGridWidth w := by
  have h1 := gridWidth_pos hw
  have : (0 : ℤ) < MAX_GRID_SIZE := by norm_num [MAX_GRID_SIZE]
  exact lt_min h1 this

lemma gridHeight_pos {h : ℚ} (hh : 0 < h) : 0 < gridHeight h := by
  have : (0 : ℚ) < h / pixelSize := by
    have : (0 : ℚ) < pixelSize := by norm_num [pixelSize]
    positivity
  have := Int.ceil_pos.mpr this
  simpa [gridHeight, jsCeil] using this

lemma actualGridHeight_pos {h : ℚ} (hh : 0 < h) : 0 < actualGridHeight h := by
  have h1 := gridHeight_pos hh
  have : (0 : ℤ) < MAX_GRID_SIZE := by norm_num [MAX_GRID_SIZE]
  exact lt_min h1 this

/-- C1 amended: in the complete variant the synthesizer grid is capped at 80
cells per axis; when the natural grid exceeds the cap the dimension is
clamped to exactly 80 and the effective pixel size grows strictly beyond the
nominal 10 px, and in every case the capped grid times the effective pixel
size still covers the fragment's full width and height.  In the
cloudDataWorker.ts variant there is no cap: the natural grid ceil(dim/8) is
used as is and exceeds 80 on every axis dimension above 640 px. -/
theorem grid_cap_invariant (w h : ℚ) (hw : 0 < w) (hh : 0 < h) :
    actualGridWidth w ≤ MAX_GRID_SIZE ∧
    actualGridHeight h ≤ MAX_GRID_SIZE ∧
    (MAX_GRID_SIZE < gridWidth w →
      actualGridWidth w = MAX_GRID_SIZE ∧ pixelSize < adjustedPixelSize w h) ∧
    (MAX_GRID_SIZE < gridHeight h →
      actualGridHeight h = MAX_GRID_SIZE ∧ pixelSize < adjustedPixelSize w h) ∧
    w ≤ (actualGridWidth w : ℚ) * adjustedPixelSize w h ∧
    h ≤ (actualGridHeight h : ℚ) * adjustedPixelSize w h ∧
    (∀ wAlt : ℚ, 640 < wAlt → MAX_GRID_SIZE < gridWidthAlt wAlt) ∧
    (∀ hAlt : ℚ, 640 < hAlt → MAX_GRID_SIZE < gridHeightAlt hAlt) := by
  have hawQ : (0 : ℚ) < (actualGridWidth w : ℚ) := by
    exact_mod_cast actualGridWidth_pos hw
  have hahQ : (0 : ℚ) < (actualGridHeight h : ℚ) := by
    exact_mod_cast actualGridHeight_pos hh
  refine ⟨min_le_right _ _, min_le_right _ _, ?_, ?_, ?_, ?_, ?_, ?_⟩
  · intro hcap
    have heq : actualGridWidth w = MAX_GRID_SIZE :=
      min_eq_right (le_of_lt hcap)
    refine ⟨heq, ?_⟩
    -- gridWidth w ≥ 81 means ceil (w/10) ≥ 81, so w/10 > 80, hence w > 800
    have h81 : (81 : ℤ) ≤ gridWidth w := hcap
    have hgt : (80 : ℚ) < w / pixelSize := by
      by_contra hle
      push_neg at hle
      have : gridWidth w ≤ 80 := by
        have := Int.ceil_le.mpr (by exact_mod_cast hle : w / pixelSize ≤ ((80 : ℤ) : ℚ))
        simpa [gridWidth, jsCeil] using this
      omega
    have hw800 : (800 : ℚ) < w := by
      have h10 : (80 : ℚ) < w / 10 := by simpa [pixelSize] using hgt
      linarith
    have hle1 : w / (actualGridWidth w : ℚ) ≤ adjustedPixelSize w h :=
      le_max_left _ _
    have : (10 : ℚ) < w / (actualGridWidth w : ℚ) := by
      rw [heq]
      rw [lt_div_iff₀ (by norm_num [MAX_GRID_SIZE] : (0:ℚ) < ((MAX_GRID_SIZE : ℤ) : ℚ))]
      norm_num [MAX_GRID_SIZE]
      linarith
    calc pixelSize = (10 : ℚ) := by norm_num [pixelSize]
      _ < w / (actualGridWidth w : ℚ) := this
      _ ≤ adjustedPixelSize w h := hle1
  · intro hcap
    have heq : actualGridHeight h = MAX_GRID_SIZE :=
      min_eq_right (le_of_lt hcap)
    refine ⟨heq, ?_⟩
    have h81 : (81 : ℤ) ≤ gridHeight h := hcap
    have hgt : (80 : ℚ) < h / pixelSize := by
      by_contra hle
      push_neg at hle
      have : gridHeight h ≤ 80 := by
        have := Int.ceil_le.mpr (by exact_mod_cast hle : h / pixelSize ≤ ((80 : ℤ) : ℚ))
        simpa [gridHeight, jsCeil] using this
      omega
    have hh800 : (800 : ℚ) < h := by
      have h10 : (80 : ℚ) < h / 10 := by simpa [pixelSize] using hgt
      linarith
    have hle1 : h / (actualGridHeight h : ℚ) ≤ adjustedPixelSize w h :=
      le_max_right _ _
    have : (10 : ℚ) < h / (actualGridHeight h : ℚ) := by
      rw [heq]
      rw [lt_div_iff₀ (by norm_num [MAX_GRID_SIZE] : (0:ℚ) < ((MAX_GRID_SIZE : ℤ) : ℚ))]
      norm_num [MAX_GRID_SIZE]
      linarith
    calc pixelSize = (10 : ℚ) := by norm_num [pixelSize]
      _ < h / (actualGridHeight h : ℚ) := this
      _ ≤ adjustedPixelSize w h := hle1
  · have h1 : w / (actualGridWidth w : ℚ) ≤ adjustedPixelSize w h := le_max_left _ _
    have := mul_le_mul_of_nonneg_left h1 (le_of_lt hawQ)
    calc w = (actualGridWidth w : ℚ) * (w / (actualGridWidth w : ℚ)) := by
          field_simp
      _ ≤ (actualGridWidth w : ℚ) * adjustedPixelSize w h := this
  · have h1 : h / (actualGridHeight h : ℚ) ≤ adjustedPixelSize w h := le_max_right _ _
    have := mul_le_mul_of_nonneg_left h1 (le_of_lt hahQ)
    calc h = (actualGridHeight h : ℚ) * (h / (actualGridHeight h : ℚ)) := by
          field_simp
      _ ≤ (actualGridHeight h : ℚ) * adjustedPixelSize w h := this
  · intro wAlt hwAlt
    have : ((MAX_GRID_SIZE : ℤ) : ℚ) < wAlt / pixelSizeAlt := by
      rw [show ((MAX_GRID_SIZE : ℤ) : ℚ) = 80 from by norm_num [MAX_GRID_SIZE]]
      rw [show pixelSizeAlt = (8 : ℚ) from by norm_num [pixelSizeAlt]]
      rw [lt_div_iff₀ (by norm_num : (0 : ℚ) < 8)]
      linarith
    simpa [gridWidthAlt, jsCeil] using Int.lt_ceil.mpr this
  · intro hAlt hhAlt
    have : ((MAX_GRID_SIZE : ℤ) : ℚ) < hAlt / pixelSizeAlt := by
      rw [show ((MAX_GRID_SIZE : ℤ) : ℚ) = 80 from by norm_num [MAX_GRID_SIZE]]
      rw [show pixelSizeAlt = (8 : ℚ) from by norm_num [pixelSizeAlt]]
      rw [lt_div_iff₀ (by norm_num : (0 : ℚ) < 8)]
      linarith
    simpa [gridHeightAlt, jsCeil] using Int.lt_ceil.mpr this

/-- Counterexample for C1: the generateFullCloudData variant in
src/src/workers/cloudDataWorker.ts has no grid cap, so a fragment 1000 px
wide yields a grid of ceil(1000/8) = 125 cells on the x axis, exceeding the
configured maximum of 80. -/
theorem grid_cap_counterexample :
    gridWidthAlt 1000 = 125 ∧ MAX_GRID_SIZE < gridWidthAlt 1000 := by
  have h125 : gridWidthAlt 1000 = 125 := by
    simp only [gridWidthAlt, jsCeil, pixelSizeAlt]
    rw [show (1000 : ℚ) / 8 = 125 from by norm_num]
    exact_mod_cast Int.ceil_intCast (125 : ℤ)
  exact ⟨h125, by rw [h125]; norm_num [MAX_GRID_SIZE]⟩

/-- Witness for C1 amended at a concrete oversized fragment of 1000 by 500 px. -/
theorem grid_cap_invariant_witness :
    (0 : ℚ) < 1000 ∧ (0 : ℚ) < 500 ∧
    (actualGridWidth 1000 ≤ MAX_GRID_SIZE ∧
     actualGridHeight 500 ≤ MAX_GRID_SIZE ∧
     (MAX_GRID_SIZE < gridWidth 1000 →
       actualGridWidth 1000 = MAX_GRID_SIZE ∧
       pixelSize < adjustedPixelSize 1000 500) ∧
     (MAX_GRID_SIZE < gridHeight 500 →
       actualGridHeight 500 = MAX_GRID_SIZE ∧
       pixelSize < adjustedPixelSize 1000 500) ∧
     (1000 : ℚ) ≤ (actualGridWidth 1000 : ℚ) * adjustedPixelSize 1000 500 ∧
     (500 : ℚ) ≤ (actualGridHeight 500 : ℚ) * adjustedPixelSize 1000 500 ∧
     (∀ wAlt : ℚ, 640 < wAlt → MAX_GRID_SIZE < gridWidthAlt wAlt) ∧
     (∀ hAlt : ℚ, 640 < hAlt → MAX_GRID_SIZE < gridHeightAlt hAlt)) :=
  ⟨by norm_num, by norm_num,
   grid_cap_invariant 1000 500 (by norm_num) (by norm_num)⟩

/-- C9: PerlinNoise is deterministic in the seed.  Two independently
constructed instances with equal seeds have identical permutation tables and
return identical noise values at every input, and repeated calls on one
instance agree, because the table is a pure function of the seed and lookup
has no other state. -/
theorem perlin_noise_deterministic (s1 s2 x y : ℚ) (hseed : s1 = s2) :
    (PerlinNoise.create s1).permutation = (PerlinNoise.create s2).permutation ∧
    (PerlinNoise.create s1).noise x y = (PerlinNoise.create s2).noise x y ∧
    (PerlinNoise.create s1).noise x y = (PerlinNoise.create s1).noise x y := by
  subst hseed
  exact ⟨rfl, rfl, rfl⟩

/-- Witness for C9 at seed 42 and input (1/2, 1/3). -/
theorem perlin_noise_deterministic_witness :
    (PerlinNoise.create 42).permutation = (PerlinNoise.create 42).permutation ∧
    (PerlinNoise.create 42).noise (1/2) (1/3) =
      (PerlinNoise.create 42).noise (1/2) (1/3) ∧
    (PerlinNoise.create 42).noise (1/2) (1/3) =
      (PerlinNoise.create 42).noise (1/2) (1/3) :=
  perlin_noise_deterministic 42 42 (1/2) (1/3) rfl

/-- Counterexample for C6: in the generateDepthLayersAlt variant the scale
midpoint strictly increases with depth, so the claimed strict decrease fails
there. With two layers, layer 0 has depth 0 and scale midpoint 0.45 while
layer 1 has depth 1 and scale midpoint 1.2. -/
theorem depth_ordering_counterexample :
    (generateDepthLayersAlt 2 0).depth < (generateDepthLayersAlt 2 1).depth ∧
    scaleMid (generateDepthLayersAlt 2 0) < scaleMid (generateDepthLayersAlt 2 1) := by
  constructor <;> norm_num [generateDepthLayersAlt, scaleMid]

/-- C6 amended: in the generateDepthLayersMain variant, as the depth grows the
scale-range midpoint strictly decreases and the speed multiplier strictly
increases; in the generateDepthLayersAlt variant the speed multiplier still
strictly increases but the scale midpoint strictly increases as well. -/
theorem depth_ordering_monotonicity (n i j : ℕ) (hn : 2 ≤ n) (hij : i < j)
    (hj : j < n) :
    (generateDepthLayersMain n i).depth < (generateDepthLayersMain n j).depth ∧
    scaleMid (generateDepthLayersMain n j) < scaleMid (generateDepthLayersMain n i) ∧
    (generateDepthLayersMain n i).speedMultiplier <
      (generateDepthLayersMain n j).speedMultiplier ∧
    (generateDepthLayersAlt n i).speedMultiplier <
      (generateDepthLayersAlt n j).speedMultiplier ∧
    scaleMid (generateDepthLayersAlt n i) < scaleMid (generateDepthLayersAlt n j) := by
  have hden : (0 : ℚ) < (n : ℚ) - 1 := by
    have : (2 : ℚ) ≤ (n : ℚ) := by exact_mod_cast hn
    linarith
  have hijQ : (i : ℚ) < (j : ℚ) := by exact_mod_cast hij
  have hd : (i : ℚ) / ((n : ℚ) - 1) < (j : ℚ) / ((n : ℚ) - 1) := by
    rw [div_lt_div_iff₀ hden hden]
    nlinarith
  refine ⟨?_, ?_, ?_, ?_, ?_⟩ <;>
    simp only [generateDepthLayersMain, generateDepthLayersAlt, scaleMid] <;>
    linarith

/-- Witness for C6 amended at three layers, comparing layers 0 and 2. -/
theorem depth_ordering_monotonicity_witness :
    (generateDepthLayersMain 3 0).depth < (generateDepthLayersMain 3 2).depth ∧
    scaleMid (generateDepthLayersMain 3 2) < scaleMid (generateDepthLayersMain 3 0) ∧
    (generateDepthLayersMain 3 0).speedMultiplier <
      (generateDepthLayersMain 3 2).speedMultiplier ∧
    (generateDepthLayersAlt 3 0).speedMultiplier <
      (generateDepthLayersAlt 3 2).speedMultiplier ∧
    scaleMid (generateDepthLayersAlt 3 0) < scaleMid (generateDepthLayersAlt 3 2) :=
  depth_ordering_monotonicity 3 0 2 (by norm_num) (by norm_num) (by norm_num)

/-- C8: destroying a live fragment destroys the display object, releases the
render texture, destroys the graphics, and clears the pixel properties to
length zero; destroying again is a no-op returning the same state. -/
theorem destroy_idempotent (s : CloudFragmentState)
    (hlive : s.displayObjectDestroyed = false) :
    (s.destroy).displayObjectDestroyed = true ∧
    (s.destroy).hasRenderTexture = false ∧
    (s.destroy).graphicsDestroyed = true ∧
    (s.destroy).pixelProperties = [] ∧
    s.destroy.destroy = s.destroy := by
  simp [CloudFragmentState.destroy, hlive]

/-- Witness for C8 on a concrete live fragment state. -/
theorem destroy_idempotent_witness :
    (witnessFragmentState.destroy).displayObjectDestroyed = true ∧
    (witnessFragmentState.destroy).hasRenderTexture = false ∧
    (witnessFragmentState.destroy).graphicsDestroyed = true ∧
    (witnessFragmentState.destroy).pixelProperties = [] ∧
    witnessFragmentState.destroy.destroy = witnessFragmentState.destroy :=
  destroy_idempotent witnessFragmentState rfl

/-- C4: evaluating the shadow-factor computation at the failing input.  At the
cell (0, 0) under light direction (0, 1), a non-edge cell of density 1/2 gets
shadow factor 17/40 while density 1 gets 1/2: a higher density yields a shadow
factor strictly closer to 1 (less self-shadowing), contrary to the claim that
denser cells are multiplied further toward 0. -/
theorem shadow_density_direction_failing :
    Worker.computeShadowFactor 0 0 0 1 (1/2) false = 17/40 ∧
    Worker.computeShadowFactor 0 0 0 1 1 false = 1/2 ∧
    Worker.computeShadowFactor 0 0 0 1 (1/2) false <
      Worker.computeShadowFactor 0 0 0 1 1 false := by
  refine ⟨?_, ?_, ?_⟩ <;> norm_num [Worker.computeShadowFactor]

/-- C10: every shadow factor written by the synthesizer loop or by
recalculatePixelColorsAndShadows is clamped into [0.1, 1]; in particular the
updated pixel properties returned by the re-shading operation all carry a
numeric shadow factor in that interval. -/
theorem shadow_factor_clamped :
    (∀ (nx ny lx ly d : ℚ) (e : Bool),
       1/10 ≤ Worker.computeShadowFactor nx ny lx ly d e ∧
       Worker.computeShadowFactor nx ny lx ly d e ≤ 1) ∧
    (∀ (props : List (Option Worker.RawPixelProp))
       (g : Option Worker.WorkerSkyGradient) (fd : Worker.FragmentData)
       (q : Worker.RawPixelProp),
       q ∈ (Worker.recalculatePixelColorsAndShadows props g fd).2 →
       ∃ sNew : ℚ, q.shadowFactor = Worker.JSVal.num sNew ∧
         1/10 ≤ sNew ∧ sNew ≤ 1) := by
  have hbounds : ∀ (nx ny lx ly d : ℚ) (e : Bool),
      1/10 ≤ Worker.computeShadowFactor nx ny lx ly d e ∧
      Worker.computeShadowFactor nx ny lx ly d e ≤ 1 := by
    intro nx ny lx ly d e
    constructor
    · have : (1/10 : ℚ) = 0.1 := by norm_num
      rw [this]
      exact le_max_left _ _
    · simp only [Worker.computeShadowFactor]
      exact max_le (by norm_num) (le_trans (min_le_left _ _) (by norm_num))
  refine ⟨hbounds, ?_⟩
  intro props g fd q hq
  induction props with
  | nil => simp [Worker.recalculatePixelColorsAndShadows] at hq
  | cons e rest ih =>
    cases e with
    | none =>
      simp only [Worker.recalculatePixelColorsAndShadows] at hq
      exact ih hq
    | some p =>
      simp only [Worker.recalculatePixelColorsAndShadows] at hq
      by_cases hv : Worker.validForShadows p
      · simp only [hv, if_pos] at hq
        rcases List.mem_cons.mp hq with hq | hq
        · subst hq
          refine ⟨_, rfl, ?_⟩
          exact hbounds _ _ _ _ _ _
        · exact ih hq
      · simp only [hv] at hq
        simp at hq
        exact ih hq

/-- Witness for C10: the generic bound at a concrete input, and the updated
property produced by the re-shading operation on a concrete valid entry. -/
theorem shadow_factor_clamped_witness :
    (1/10 ≤ Worker.computeShadowFactor 0 0 0 1 (1/2) false ∧
     Worker.computeShadowFactor 0 0 0 1 (1/2) false ≤ 1) ∧
    ∃ sNew : ℚ,
      (Worker.recalcShadowOf witnessGradient ⟨3/10⟩ witnessRaw).2.shadowFactor =
        Worker.JSVal.num sNew ∧ 1/10 ≤ sNew ∧ sNew ≤ 1 :=
  ⟨shadow_factor_clamped.1 0 0 0 1 (1/2) false,
   shadow_factor_clamped.2 [some witnessRaw] witnessGradient ⟨3/10⟩
     (Worker.recalcShadowOf witnessGradient ⟨3/10⟩ witnessRaw).2
     (by
       have hv : Worker.validForShadows witnessRaw = true := rfl
       simp [Worker.recalculatePixelColorsAndShadows, hv])⟩

/-- C7: both re-shading operations return empty results on an empty
attributes array, and an entry that is not an object or fails the per-field
type checks is skipped while every remaining entry is still processed, so the
output over a list containing a bad entry is the concatenation of the outputs
over the surrounding sublists. -/
theorem reshade_error_tolerance :
    (∀ g, Worker.recalculatePixelColors [] g = []) ∧
    (∀ g fd, Worker.recalculatePixelColorsAndShadows [] g fd = ([], [])) ∧
    (∀ (xs ys : List (Option Worker.RawPixelProp)) g e,
       Worker.skippedByColors e →
       Worker.recalculatePixelColors (xs ++ e :: ys) g =
         Worker.recalculatePixelColors xs g ++ Worker.recalculatePixelColors ys g) ∧
    (∀ (xs ys : List (Option Worker.RawPixelProp)) g fd e,
       Worker.skippedByShadows e →
       Worker.recalculatePixelColorsAndShadows (xs ++ e :: ys) g fd =
         ((Worker.recalculatePixelColorsAndShadows xs g fd).1 ++
            (Worker.recalculatePixelColorsAndShadows ys g fd).1,
          (Worker.recalculatePixelColorsAndShadows xs g fd).2 ++
            (Worker.recalculatePixelColorsAndShadows ys g fd).2)) := by
  have hskipC : ∀ (ys : List (Option Worker.RawPixelProp)) g e,
      Worker.skippedByColors e →
      Worker.recalculatePixelColors (e :: ys) g = Worker.recalculatePixelColors ys g := by
    intro ys g e he
    cases e with
    | none => simp [Worker.recalculatePixelColors]
    | some p =>
      simp only [Worker.skippedByColors] at he
      simp [Worker.recalculatePixelColors, he]
  have hskipS : ∀ (ys : List (Option Worker.RawPixelProp)) g fd e,
      Worker.skippedByShadows e →
      Worker.recalculatePixelColorsAndShadows (e :: ys) g fd =
        Worker.recalculatePixelColorsAndShadows ys g fd := by
    intro ys g fd e he
    cases e with
    | none => simp [Worker.recalculatePixelColorsAndShadows]
    | some p =>
      simp only [Worker.skippedByShadows] at he
      simp [Worker.recalculatePixelColorsAndShadows, he]
  refine ⟨fun g => rfl, fun g fd => rfl, ?_, ?_⟩
  · intro xs ys g e he
    induction xs with
    | nil => simpa using hskipC ys g e he
    | cons a xs ih =>
      cases a with
      | none => simpa [Worker.recalculatePixelColors] using ih
      | some p =>
        by_cases hv : Worker.validForColors p
        · simp [Worker.recalculatePixelColors, hv, ih]
        · simp [Worker.recalculatePixelColors, hv, ih]
  · intro xs ys g fd e he
    induction xs with
    | nil => simpa using hskipS ys g fd e he
    | cons a xs ih =>
      cases a with
      | none => simpa [Worker.recalculatePixelColorsAndShadows] using ih
      | some p =>
        by_cases hv : Worker.validForShadows p
        · simp [Worker.recalculatePixelColorsAndShadows, hv, ih]
        · simp [Worker.recalculatePixelColorsAndShadows, hv, ih]

/-- Witness for C7: a concrete malformed entry between two valid entries is
skipped while both neighbours are processed. -/
theorem reshade_error_tolerance_witness :
    Worker.skippedByColors witnessBadEntry ∧
    Worker.recalculatePixelColors
        ([witnessPixel.toRaw] ++ witnessBadEntry :: [witnessPixel.toRaw])
        witnessGradient =
      Worker.recalculatePixelColors [witnessPixel.toRaw] witnessGradient ++
        Worker.recalculatePixelColors [witnessPixel.toRaw] witnessGradient :=
  ⟨by simp [Worker.skippedByColors, witnessBadEntry, Worker.validForColors,
      Worker.JSVal.isNum],
   reshade_error_tolerance.2.2.1 [witnessPixel.toRaw] [witnessPixel.toRaw]
     witnessGradient witnessBadEntry
     (by simp [Worker.skippedByColors, witnessBadEntry, Worker.validForColors,
         Worker.JSVal.isNum])⟩

/-- C3: re-shading with the same descriptor used at synthesis reproduces the
stored colors: on any list of pixel properties whose color fields carry the
synthesis color for descriptor g, recalculatePixelColors returns exactly the
list of those stored colors (same length, element-wise equal). -/
theorem reshade_equivalence (props : List Worker.PixelProperty)
    (g : Option Worker.WorkerSkyGradient)
    (hsynth : ∀ p ∈ props, p.color = Worker.synthesisColor g p) :
    Worker.recalculatePixelColors (props.map Worker.PixelProperty.toRaw) g =
      props.map (fun p => p.color) := by
  induction props with
  | nil => rfl
  | cons p rest ih =>
    have hp := hsynth p (List.mem_cons_self p rest)
    have hrest : ∀ q ∈ rest, q.color = Worker.synthesisColor g q := fun q hq =>
      hsynth q (List.mem_cons_of_mem p hq)
    have hvalid : Worker.validForColors
        { nx := .num p.nx, ny := .num p.ny, density := .num p.density
          isEdge := .bool p.isEdge, edgeDistance := .num p.edgeDistance
          shadowFactor := .num p.shadowFactor, brightness := .num p.brightness
          depth := .num p.depth } = true := rfl
    simp only [List.map_cons, Worker.recalculatePixelColors,
      Worker.PixelProperty.toRaw, hvalid, if_pos]
    refine congrArg₂ _ ?_ (ih hrest)
    rw [hp]
    rfl

/-- Witness for C3 on a concrete daytime descriptor and a pixel property
carrying its synthesis color. -/
theorem reshade_equivalence_witness :
    Worker.recalculatePixelColors ([witnessPixel].map Worker.PixelProperty.toRaw)
        witnessGradient =
      [witnessPixel].map (fun p => p.color) :=
  reshade_equivalence [witnessPixel] witnessGradient
    (by
      intro p hp
      rw [List.mem_singleton] at hp
      subst hp
      rfl)


namespace Sky

lemma easeInOutCubic_zero : easeInOutCubic 0 = 0 := by
  norm_num [easeInOutCubic]

lemma easeInOutCubic_mem {t : ℚ} (h0 : 0 ≤ t) (h1 : t ≤ 1) :
    0 ≤ easeInOutCubic t ∧ easeInOutCubic t ≤ 1 := by
  unfold easeInOutCubic
  split
  · constructor
    · positivity
    · nlinarith [sq_nonneg t]
  · rename_i hge
    push_neg at hge
    have h05 : (1/2 : ℚ) ≤ t := by
      rw [show (0.5 : ℚ) = 1/2 from by norm_num] at hge
      exact hge
    constructor
    · nlinarith [sq_nonneg (-2 * t + 2)]
    · nlinarith [sq_nonneg (-2 * t + 2), sq_nonneg t]

lemma interpolateColor_zero (c1 c2 : RGB) : interpolateColor c1 c2 0 = c1 := by
  cases c1
  simp [interpolateColor]

lemma channelBetween_lerp (a b t : ℚ) (h0 : 0 ≤ t) (h1 : t ≤ 1) :
    channelBetween a b (a + (b - a) * t) := by
  rcases le_total a b with hab | hab
  · constructor
    · rw [min_eq_left hab]
      nlinarith
    · rw [max_eq_right hab]
      nlinarith
  · constructor
    · rw [min_eq_right hab]
      nlinarith
    · rw [max_eq_left hab]
      nlinarith

lemma rgbBetween_interpolate (c1 c2 : RGB) (t : ℚ) (h0 : 0 ≤ t) (h1 : t ≤ 1) :
    rgbBetween c1 c2 (interpolateColor c1 c2 t) :=
  ⟨channelBetween_lerp _ _ t h0 h1, channelBetween_lerp _ _ t h0 h1,
   channelBetween_lerp _ _ t h0 h1⟩

lemma nextTimeOfDay_ne (t : TimeOfDay) : nextTimeOfDay t ≠ t := by
  cases t <;> decide

lemma periodProgress_mem (sp : SunPosition) (now : ℚ) :
    0 ≤ periodProgress sp now ∧ periodProgress sp now ≤ 1 := by
  simp only [periodProgress, clampQ]
  split
  · exact ⟨le_max_left _ _, max_le (by norm_num) (min_le_left _ _)⟩
  · norm_num

lemma getD_map_range {α : Type} (n i : ℕ) (f : ℕ → α) (z : α) (h : i < n) :
    ((List.range n).map f).getD i z = f i := by
  rw [List.getD_eq_getElem?_getD]
  rw [List.getElem?_map]
  rw [List.getElem?_range h]
  rfl

lemma interpolateGradientColors_zero (l1 l2 : List RGB) :
    interpolateGradientColors l1 l2 0 = padStops l1 l2 := by
  unfold interpolateGradientColors padStops
  apply List.map_congr_left
  intro i _
  exact interpolateColor_zero _ _

/-- The transition info when progress has reached the threshold. -/
lemma calculateTransitionInfo_of_ge (sp : SunPosition) (now : ℚ)
    (h : 3/4 ≤ periodProgress sp now) :
    calculateTransitionInfo sp now =
      { isTransitioning := true
        nextTimeOfDayName := nextTimeOfDay sp.currentTimePeriod.name
        progress :=
          easeInOutCubic
            (min 1 (max 0 ((periodProgress sp now - 0.75) / (1 - 0.75)))) } := by
  unfold calculateTransitionInfo
  rw [if_pos]
  rw [show (0.75 : ℚ) = 3/4 from by norm_num]
  exact h

/-- The transition info below the threshold. -/
lemma calculateTransitionInfo_of_lt (sp : SunPosition) (now : ℚ)
    (h : periodProgress sp now < 3/4) :
    calculateTransitionInfo sp now =
      { isTransitioning := false
        nextTimeOfDayName := nextTimeOfDay sp.currentTimePeriod.name
        progress := 0 } := by
  unfold calculateTransitionInfo
  rw [if_neg]
  rw [show (0.75 : ℚ) = 3/4 from by norm_num]
  exact not_le.mpr h

end Sky

/-- C2 amended: below intra-phase progress 0.75 the descriptor is the current
phase's palette unmixed; at progress exactly 0.75 every scalar color equals
the unmixed palette and the gradient stop list equals the current phase's
stops padded to the longer of the two phases' stop counts by replicating the
final stop; and from 0.75 on, every channel of every produced color lies
between the corresponding channels of the current and next phases (stop lists
compared index-wise with the index clamped to each list's last element). -/
theorem transition_policy (sp : Sky.SunPosition) (now : ℚ) :
    (Sky.periodProgress sp now < 3/4 →
      Sky.generateSkyGradientColors sp now =
        Sky.unmixedSkyColors sp.currentTimePeriod.name) ∧
    (Sky.periodProgress sp now = 3/4 →
      (Sky.generateSkyGradientColors sp now).sunColor =
        (Sky.unmixedSkyColors sp.currentTimePeriod.name).sunColor ∧
      (Sky.generateSkyGradientColors sp now).cloudBaseColor =
        (Sky.unmixedSkyColors sp.currentTimePeriod.name).cloudBaseColor ∧
      (Sky.generateSkyGradientColors sp now).cloudHighlightColor =
        (Sky.unmixedSkyColors sp.currentTimePeriod.name).cloudHighlightColor ∧
      (Sky.generateSkyGradientColors sp now).cloudShadowColor =
        (Sky.unmixedSkyColors sp.currentTimePeriod.name).cloudShadowColor ∧
      (Sky.generateSkyGradientColors sp now).gradientColors =
        Sky.padStops (Sky.gradientColorsFor sp.currentTimePeriod.name)
          (Sky.gradientColorsFor (Sky.nextTimeOfDay sp.currentTimePeriod.name))) ∧
    (3/4 ≤ Sky.periodProgress sp now →
      Sky.rgbBetween (Sky.getSunColorForTimeOfDay sp.currentTimePeriod.name)
        (Sky.getSunColorForTimeOfDay (Sky.nextTimeOfDay sp.currentTimePeriod.name))
        (Sky.generateSkyGradientColors sp now).sunColor ∧
      Sky.rgbBetween
        (Sky.getCloudColorsForTimeOfDay sp.currentTimePeriod.name).cloudBaseColor
        (Sky.getCloudColorsForTimeOfDay
          (Sky.nextTimeOfDay sp.currentTimePeriod.name)).cloudBaseColor
        (Sky.generateSkyGradientColors sp now).cloudBaseColor ∧
      Sky.rgbBetween
        (Sky.getCloudColorsForTimeOfDay sp.currentTimePeriod.name).cloudHighlightColor
        (Sky.getCloudColorsForTimeOfDay
          (Sky.nextTimeOfDay sp.currentTimePeriod.name)).cloudHighlightColor
        (Sky.generateSkyGradientColors sp now).cloudHighlightColor ∧
      Sky.rgbBetween
        (Sky.getCloudColorsForTimeOfDay sp.currentTimePeriod.name).cloudShadowColor
        (Sky.getCloudColorsForTimeOfDay
          (Sky.nextTimeOfDay sp.currentTimePeriod.name)).cloudShadowColor
        (Sky.generateSkyGradientColors sp now).cloudShadowColor ∧
      ∀ i < (Sky.generateSkyGradientColors sp now).gradientColors.length,
        Sky.rgbBetween
          ((Sky.gradientColorsFor sp.currentTimePeriod.name).getD
            (min i ((Sky.gradientColorsFor sp.currentTimePeriod.name).length - 1))
            ⟨0, 0, 0⟩)
          ((Sky.gradientColorsFor (Sky.nextTimeOfDay sp.currentTimePeriod.name)).getD
            (min i
              ((Sky.gradientColorsFor
                (Sky.nextTimeOfDay sp.currentTimePeriod.name)).length - 1))
            ⟨0, 0, 0⟩)
          ((Sky.generateSkyGradientColors sp now).gradientColors.getD i ⟨0, 0, 0⟩)) := by
  refine ⟨?_, ?_, ?_⟩
  · intro hlt
    have hinfo := Sky.calculateTransitionInfo_of_lt sp now hlt
    unfold Sky.generateSkyGradientColors
    rw [hinfo]
    simp
  · intro heq
    have hge : 3/4 ≤ Sky.periodProgress sp now := le_of_eq heq.symm
    have hinfo := Sky.calculateTransitionInfo_of_ge sp now hge
    have hprog :
        Sky.easeInOutCubic
          (min 1 (max 0 ((Sky.periodProgress sp now - 0.75) / (1 - 0.75)))) = 0 := by
      rw [heq]
      norm_num
      exact Sky.easeInOutCubic_zero
    unfold Sky.generateSkyGradientColors
    rw [hinfo]
    rw [if_pos ⟨rfl, Sky.nextTimeOfDay_ne sp.currentTimePeriod.name⟩]
    simp only [hprog]
    refine ⟨?_, ?_, ?_, ?_, ?_⟩ <;>
      simp [Sky.interpolateColor_zero, Sky.interpolateGradientColors_zero,
        Sky.unmixedSkyColors]
  · intro hge
    have hinfo := Sky.calculateTransitionInfo_of_ge sp now hge
    set prog :=
      Sky.easeInOutCubic
        (min 1 (max 0 ((Sky.periodProgress sp now - 0.75) / (1 - 0.75)))) with hprogdef
    have hmem : 0 ≤ prog ∧ prog ≤ 1 := by
      apply Sky.easeInOutCubic_mem
      · exact le_min (by norm_num) (le_max_left _ _)
      · exact min_le_left _ _
    have hmem0 : 0 ≤ min 1 (max 0 ((Sky.periodProgress sp now - 0.75) / (1 - 0.75))) :=
      le_min (by norm_num) (le_max_left _ _)
    have hmem1 : min 1 (max 0 ((Sky.periodProgress sp now - 0.75) / (1 - 0.75))) ≤ 1 :=
      min_le_left _ _
    have hprogmem : 0 ≤ prog ∧ prog ≤ 1 := by
      rw [hprogdef]
      exact Sky.easeInOutCubic_mem hmem0 hmem1
    unfold Sky.generateSkyGradientColors
    rw [hinfo]
    rw [if_pos ⟨rfl, Sky.nextTimeOfDay_ne sp.currentTimePeriod.name⟩]
    refine ⟨?_, ?_, ?_, ?_, ?_⟩
    · exact Sky.rgbBetween_interpolate _ _ _ hprogmem.1 hprogmem.2
    · exact Sky.rgbBetween_interpolate _ _ _ hprogmem.1 hprogmem.2
    · exact Sky.rgbBetween_interpolate _ _ _ hprogmem.1 hprogmem.2
    · exact Sky.rgbBetween_interpolate _ _ _ hprogmem.1 hprogmem.2
    · intro i hi
      simp only [Sky.interpolateGradientColors, List.length_map,
        List.length_range] at hi
      simp only [Sky.interpolateGradientColors]
      rw [Sky.getD_map_range _ i _ _ hi]
      exact Sky.rgbBetween_interpolate _ _ _ hprogmem.1 hprogmem.2

/-- Counterexample for C2: with the current phase night_before_dawn (3 linear
stops) transitioning toward dawn (4 radial stops), at intra-phase progress
exactly 0.75 the produced gradient stop list has 4 entries, so the descriptor
does not equal the unmixed 3-stop current palette. -/
theorem transition_policy_counterexample :
    Sky.periodProgress ⟨0, 0, ⟨.night_before_dawn, 0, 1000⟩⟩ 750 = 3/4 ∧
    Sky.generateSkyGradientColors ⟨0, 0, ⟨.night_before_dawn, 0, 1000⟩⟩ 750 ≠
      Sky.unmixedSkyColors .night_before_dawn := by
  have hpp : Sky.periodProgress ⟨0, 0, ⟨.night_before_dawn, 0, 1000⟩⟩ 750 = 3/4 := by
    simp only [Sky.periodProgress, clampQ]
    rw [if_pos (by norm_num : (0 : ℚ) < 1000 - 0)]
    rw [show ((750 : ℚ) - 0) / (1000 - 0) = 3/4 from by norm_num]
    rw [min_eq_right (by norm_num : (3/4 : ℚ) ≤ 1)]
    rw [max_eq_right (by norm_num : (0 : ℚ) ≤ 3/4)]
  refine ⟨hpp, ?_⟩
  intro hcontr
  have hlen := congrArg (fun c => c.gradientColors.length) hcontr
  have hinfo := Sky.calculateTransitionInfo_of_ge ⟨0, 0, ⟨.night_before_dawn, 0, 1000⟩⟩
    750 (le_of_eq hpp.symm)
  have hnext : Sky.nextTimeOfDay .night_before_dawn = .dawn := by decide
  simp only [Sky.generateSkyGradientColors] at hlen
  rw [hinfo] at hlen
  rw [if_pos ⟨rfl, Sky.nextTimeOfDay_ne TimeOfDay.night_before_dawn⟩] at hlen
  simp only [hnext, Sky.interpolateGradientColors, Sky.unmixedSkyColors,
    Sky.gradientColorsFor, Sky.shouldUseRadialGradient,
    Sky.getGradientColorsForTimeOfDay, Sky.getRadialGradientColorsForTimeOfDay,
    List.length_map, List.length_range] at hlen
  simp at hlen

/-- Witness for C2 amended, below the threshold: at one tenth of the dawn
period the descriptor is the unmixed dawn palette. -/
theorem transition_policy_witness :
    Sky.generateSkyGradientColors ⟨0, 0, ⟨.dawn, 0, 1000⟩⟩ 100 =
      Sky.unmixedSkyColors .dawn :=
  (transition_policy ⟨0, 0, ⟨.dawn, 0, 1000⟩⟩ 100).1
    (by
      simp only [Sky.periodProgress, clampQ]
      rw [if_pos (by norm_num : (0 : ℚ) < 1000 - 0)]
      rw [show ((100 : ℚ) - 0) / (1000 - 0) = 1/10 from by norm_num]
      rw [min_eq_right (by norm_num : (1/10 : ℚ) ≤ 1)]
      rw [max_eq_right (by norm_num : (0 : ℚ) ≤ 1/10)]
      norm_num)


namespace Sky

lemma lenR_normalizeOrZero {dx dy : ℝ} (h : 0 < dx ^ 2 + dy ^ 2) :
    lenR (normalizeOrZero dx dy) = 1 := by
  have hs : 0 < Real.sqrt (dx ^ 2 + dy ^ 2) := Real.sqrt_pos.mpr h
  simp only [normalizeOrZero]
  rw [if_pos hs]
  simp only [lenR]
  rw [div_pow, div_pow, div_add_div_same]
  rw [Real.sq_sqrt h.le]
  rw [div_self (ne_of_gt h)]
  exact Real.sqrt_one

lemma phaseLightDirection_unit (t : TimeOfDay) : lenR (phaseLightDirection t) = 1 := by
  cases t <;>
    (simp only [phaseLightDirection, sunViewportPositionFor]
     apply lenR_normalizeOrZero
     push_cast
     norm_num)

end Sky

/-- C5 amended: the light direction of every non-transitioning descriptor is
exactly the phase's normalised sun-to-center vector and has length exactly 1
(the degenerate zero-vector case is unreachable because no phase places the
sun at the viewport center); transitioning descriptors instead interpolate
the two phases' unit vectors linearly, which in general is not unit. -/
theorem light_direction_unit (sp : Sky.SunPosition) (now : ℚ) :
    Sky.lenR (Sky.phaseLightDirection sp.currentTimePeriod.name) = 1 ∧
    ((Sky.calculateTransitionInfo sp now).isTransitioning = false →
      Sky.generateSkyGradientLightDirection sp now =
        Sky.phaseLightDirection sp.currentTimePeriod.name ∧
      Sky.lenR (Sky.generateSkyGradientLightDirection sp now) = 1) := by
  refine ⟨Sky.phaseLightDirection_unit _, ?_⟩
  intro hnt
  have heq : Sky.generateSkyGradientLightDirection sp now =
      Sky.phaseLightDirection sp.currentTimePeriod.name := by
    simp only [Sky.generateSkyGradientLightDirection]
    rw [if_neg]
    intro hc
    rw [hnt] at hc
    exact absurd hc.1 (by simp)
  exact ⟨heq, by rw [heq]; exact Sky.phaseLightDirection_unit _⟩

/-- Witness for C5 amended in deep night at one tenth of the period. -/
theorem light_direction_unit_witness :
    Sky.generateSkyGradientLightDirection ⟨0, 0, ⟨.deep_night, 0, 1000⟩⟩ 100 =
      Sky.phaseLightDirection TimeOfDay.deep_night ∧
    Sky.lenR (Sky.generateSkyGradientLightDirection
      ⟨0, 0, ⟨.deep_night, 0, 1000⟩⟩ 100) = 1 :=
  (light_direction_unit ⟨0, 0, ⟨.deep_night, 0, 1000⟩⟩ 100).2
    (by
      rw [Sky.calculateTransitionInfo_of_lt]
      simp only [Sky.periodProgress, clampQ]
      rw [if_pos (by norm_num : (0 : ℚ) < 1000 - 0)]
      rw [show ((100 : ℚ) - 0) / (1000 - 0) = 1/10 from by norm_num]
      rw [min_eq_right (by norm_num : (1/10 : ℚ) ≤ 1)]
      rw [max_eq_right (by norm_num : (0 : ℚ) ≤ 1/10)]
      norm_num)

/-- Counterexample for C5: halfway through the transition from solar_noon
toward afternoon (intra-phase progress 7/8, eased blend 1/2) the produced
light direction is the unnormalised average of the two unit vectors (0, 1)
and (1, 0.2)/sqrt(1.04); its length is strictly below 1, so it is not the
unit vector the claim asserts for every descriptor. -/
theorem light_direction_unit_counterexample :
    Sky.lenR (Sky.generateSkyGradientLightDirection
      ⟨0, 0, ⟨.solar_noon, 0, 1000⟩⟩ 875) < 1 := by
  have hpp : Sky.periodProgress ⟨0, 0, ⟨.solar_noon, 0, 1000⟩⟩ 875 = 7/8 := by
    simp only [Sky.periodProgress, clampQ]
    rw [if_pos (by norm_num : (0 : ℚ) < 1000 - 0)]
    rw [show ((875 : ℚ) - 0) / (1000 - 0) = 7/8 from by norm_num]
    rw [min_eq_right (by norm_num : (7/8 : ℚ) ≤ 1)]
    rw [max_eq_right (by norm_num : (0 : ℚ) ≤ 7/8)]
  have hinfo := Sky.calculateTransitionInfo_of_ge ⟨0, 0, ⟨.solar_noon, 0, 1000⟩⟩ 875
    (by rw [hpp]; norm_num)
  have hprog : Sky.easeInOutCubic
      (min 1 (max 0 ((Sky.periodProgress ⟨0, 0, ⟨.solar_noon, 0, 1000⟩⟩ 875 - 0.75) /
        (1 - 0.75)))) = 1/2 := by
    rw [hpp]
    rw [show ((7 : ℚ)/8 - 0.75) / (1 - 0.75) = 1/2 from by norm_num]
    rw [max_eq_right (by norm_num : (0 : ℚ) ≤ 1/2)]
    rw [min_eq_right (by norm_num : (1/2 : ℚ) ≤ 1)]
    unfold Sky.easeInOutCubic
    rw [if_neg (by norm_num)]
    norm_num
  have hnext : Sky.nextTimeOfDay TimeOfDay.solar_noon = TimeOfDay.afternoon := by decide
  have hspos : (0 : ℝ) < Real.sqrt 1.04 := Real.sqrt_pos.mpr (by norm_num)
  have hcur : Sky.phaseLightDirection TimeOfDay.solar_noon = ⟨0, 1⟩ := by
    simp only [Sky.phaseLightDirection, Sky.sunViewportPositionFor, Sky.normalizeOrZero]
    rw [show ((0.5 : ℝ) - ((0.5 : ℚ) : ℝ)) ^ 2 + ((0.5 : ℝ) - ((-0.5 : ℚ) : ℝ)) ^ 2 =
      1 from by push_cast; norm_num]
    rw [Real.sqrt_one]
    rw [if_pos (by norm_num : (0 : ℝ) < 1)]
    congr 1 <;> push_cast <;> norm_num
  have hnxt : Sky.phaseLightDirection TimeOfDay.afternoon =
      ⟨1 / Real.sqrt 1.04, 0.2 / Real.sqrt 1.04⟩ := by
    simp only [Sky.phaseLightDirection, Sky.sunViewportPositionFor, Sky.normalizeOrZero]
    rw [show ((0.5 : ℝ) - ((-0.5 : ℚ) : ℝ)) ^ 2 + ((0.5 : ℝ) - ((0.3 : ℚ) : ℝ)) ^ 2 =
      1.04 from by push_cast; norm_num]
    rw [if_pos hspos]
    congr 1 <;> push_cast <;> norm_num
  have hd : Sky.generateSkyGradientLightDirection ⟨0, 0, ⟨.solar_noon, 0, 1000⟩⟩ 875 =
      ⟨0 + (1 / Real.sqrt 1.04 - 0) * ((1/2 : ℚ) : ℝ),
       1 + (0.2 / Real.sqrt 1.04 - 1) * ((1/2 : ℚ) : ℝ)⟩ := by
    simp only [Sky.generateSkyGradientLightDirection]
    rw [hinfo]
    rw [if_pos ⟨rfl, Sky.nextTimeOfDay_ne TimeOfDay.solar_noon⟩]
    simp only [hnext, hprog, hcur, hnxt]
  rw [hd]
  simp only [Sky.lenR]
  have hsq : Real.sqrt 1.04 ^ 2 = 1.04 := Real.sq_sqrt (by norm_num)
  have hs1 : (1 : ℝ) ≤ Real.sqrt 1.04 := by
    rw [show (1 : ℝ) = Real.sqrt 1 from (Real.sqrt_one).symm]
    exact Real.sqrt_le_sqrt (by norm_num)
  have harg : (0 + (1 / Real.sqrt 1.04 - 0) * ((1/2 : ℚ) : ℝ)) ^ 2 +
      (1 + (0.2 / Real.sqrt 1.04 - 1) * ((1/2 : ℚ) : ℝ)) ^ 2 < 1 := by
    have hu1 : 1 / Real.sqrt 1.04 ≤ 1 := by
      rw [div_le_one hspos]
      exact hs1
    have hupos : 0 < 1 / Real.sqrt 1.04 := by positivity
    have hu2 : (1 / Real.sqrt 1.04) ^ 2 = 25 / 26 := by
      rw [div_pow, hsq]
      norm_num
    push_cast
    rw [show (0.2 : ℝ) / Real.sqrt 1.04 = 0.2 * (1 / Real.sqrt 1.04) from by ring]
    generalize 1 / Real.sqrt 1.04 = u at hu1 hupos hu2 ⊢
    nlinarith [hu1, hupos, hu2]
  calc Real.sqrt ((0 + (1 / Real.sqrt 1.04 - 0) * ((1/2 : ℚ) : ℝ)) ^ 2 +
        (1 + (0.2 / Real.sqrt 1.04 - 1) * ((1/2 : ℚ) : ℝ)) ^ 2)
      < Real.sqrt 1 := Real.sqrt_lt_sqrt (by positivity) harg
    _ = 1 := Real.sqrt_one

end Clouds
